import Mathlib

/-!
Formal model of `main.py`, a plagiarism checker that compares two text
files with a multiset (bag) Jaccard similarity.

The pipeline is: read both files, segment each text into words (via the
external `jieba` segmenter, modelled here as an abstract function
`segment : String → List String`), filter out punctuation, stop words and
empty units, build a `Counter` (token → occurrence count) for each word
list, and score `intersection / union` where intersection sums the
per-token minimum counts and union sums the per-token maximum counts.

Strings are modelled as Lean `String` (sequences of Unicode code points,
matching Python `str`); counts are `Nat`; the similarity, a Python float
obtained from exact integer division here modelled exactly, is `ℚ`.
-/

namespace PlagCheck

/-- The punctuation table of `preprocess_text`.  In the Python source the
literal is written between ASCII single quotes and itself contains two
ASCII single quotes, which close and reopen the literal; by adjacent
string-literal concatenation the resulting value is the 15-character
string below, containing two ASCII double quotes and no single quote. -/
def punctuation : String := "，。！？；：\"\"（）【】《》、"

/-- The stop-word list of `preprocess_text` (28 entries). -/
def stop_words : List String :=
  ["的", "了", "在", "是", "我", "有", "和", "就", "不", "人", "都", "一",
   "一个", "上", "也", "很", "到", "说", "要", "去", "你", "会", "着",
   "没有", "看", "好", "自己", "这"]

/-- `prefixMatch a b` holds when the code-point list `a` is an initial
segment of `b` (helper for the substring test below). -/
def prefixMatch : List Char → List Char → Bool
  | [], _ => true
  | _ :: _, [] => false
  | x :: xs, y :: ys => x == y && prefixMatch xs ys

/-- `isSubstring a b` models the Python expression `a in b` on strings:
`a` occurs as a contiguous substring of `b` (the empty list is a
substring of every list). -/
def isSubstring (a : List Char) : List Char → Bool
  | [] => a.isEmpty
  | c :: t => prefixMatch a (c :: t) || isSubstring a t

/-- The filter condition of `preprocess_text`:
`word not in punctuation and word not in stop_words and len(word) > 0`.
Note that `word not in punctuation` is a *substring* test, because
`punctuation` is a Python string. -/
def keepWord (w : String) : Bool :=
  !isSubstring w.data punctuation.data && !decide (w ∈ stop_words) && decide (0 < w.length)

/-- The loop of `preprocess_text` that appends every word passing
`keepWord` to `filtered_words`, preserving order. -/
def filter_words (words : List String) : List String :=
  words.filter keepWord

/-- `preprocess_text`: segment the text with the external segmenter, then
filter.  The segmenter (`jieba.lcut`) is an external dependency and is a
parameter of the model. -/
def preprocess_text (segment : String → List String) (text : String) : List String :=
  filter_words (segment text)

/-- The values of `Counter(a) & Counter(b)` in the order CPython produces
them: iterate the keys of `Counter(a)` (the distinct elements of `a`),
take `min(count_in_a, count_in_b)` and keep it when positive. -/
def counterAndVals (a b : List String) : List ℕ :=
  ((a.dedup.map fun w => min (a.count w) (b.count w)).filter fun n => decide (0 < n))

/-- The values of `Counter(a) | Counter(b)` in the order CPython produces
them: iterate the keys of `Counter(a)`, take
`max(count_in_a, count_in_b)` and keep it when positive; then iterate the
keys of `Counter(b)`, keeping the count of every key that is positive and
absent from `Counter(a)`. -/
def counterOrVals (a b : List String) : List ℕ :=
  ((a.dedup.map fun w => max (a.count w) (b.count w)).filter fun n => decide (0 < n))
    ++ ((b.dedup.filter fun w => decide (0 < b.count w) && !decide (w ∈ a)).map
         fun w => b.count w)

/-- `intersection = sum((original_counter & plagiarized_counter).values())`. -/
def intersectionSize (a b : List String) : ℕ :=
  (counterAndVals a b).sum

/-- `union = sum((original_counter | plagiarized_counter).values())`. -/
def unionSize (a b : List String) : ℕ :=
  (counterOrVals a b).sum

/-- `calculate_similarity`: `intersection / union`, with the division
guarded by `if union == 0: similarity = 0`. -/
def calculate_similarity (a b : List String) : ℚ :=
  if unionSize a b = 0 then 0
  else (intersectionSize a b : ℚ) / (unionSize a b : ℚ)

/-- The total of all counts stored in `Counter(ws)`: one summand per key
(distinct element of `ws`), namely its occurrence count. -/
def counterTotal (ws : List String) : ℕ :=
  (ws.dedup.map fun w => ws.count w).sum

/-- Spec formulation of the intersection size: the sum, over tokens
present in both multisets, of the minimum of the two counts. -/
def spec_intersection (a b : List String) : ℕ :=
  ∑ w ∈ a.toFinset ∩ b.toFinset, min (a.count w) (b.count w)

/-- Spec formulation of the union size: the sum, over tokens present in
either multiset, of the maximum of the two counts. -/
def spec_union (a b : List String) : ℕ :=
  ∑ w ∈ a.toFinset ∪ b.toFinset, max (a.count w) (b.count w)

/-- Spec formulation of the score: intersection over union, and `0` when
the union is empty. -/
def spec_score (a b : List String) : ℚ :=
  if spec_union a b = 0 then 0
  else (spec_intersection a b : ℚ) / (spec_union a b : ℚ)

/-- Diagnostic printed by `read_file` when `open` raises
`FileNotFoundError`: `f"错误：找不到文件 {filename}"`. -/
def file_not_found_msg (filename : String) : String :=
  "错误：找不到文件 " ++ filename

/-- Result of one program run: the console lines printed and the output
file written (path together with the exact similarity value passed to
`write_result`; the two-decimal rendering is display formatting). -/
structure RunResult where
  console : List String
  written : Option (String × ℚ)

/-- What `open(filename)` followed by `read()` can do for one path:
yield the file's content, raise `FileNotFoundError` because no file
exists at the path, or raise some other `OSError` (`PermissionError`,
`IsADirectoryError`, ...) because the path exists but is not a readable
file. -/
inductive OpenResult where
  | readable (content : String)
  | fileNotFound
  | otherOSError
deriving DecidableEq

/-- `read_file`: the file system is a map from paths to `OpenResult`.
The source catches *only* `FileNotFoundError`, printing the diagnostic
and returning `None`; on success it returns the content stripped of
leading and trailing whitespace; any other exception of `open` is not
caught and propagates to the caller, modelled by the `Except.error`
branch carrying the offending path. -/
def read_file (fs : String → OpenResult) (filename : String) :
    Except String (Option String × List String) :=
  match fs filename with
  | OpenResult.readable content => Except.ok (some content.trim, [])
  | OpenResult.fileNotFound => Except.ok (none, [ file_not_found_msg filename])
  | OpenResult.otherOSError => Except.error filename

/-- `main`: with exactly three path arguments after the program name,
read both input files (returning after the first read that yields
`None`), preprocess, score, write the result file and echo the score;
otherwise print `输入错误`.  `main` installs no exception handler of its
own, so an exception escaping `read_file` escapes `main` as well:
`Except.error` propagates. -/
def main_run (fs : String → OpenResult) (segment : String → List String)
    (argv : List String) : Except String RunResult :=
  match argv with
  | [_, original_file, plagiarized_file, output_file] =>
    match read_file fs original_file with
    | Except.error e => Except.error e
    | Except.ok (none, msgs) => Except.ok ⟨msgs, none⟩
    | Except.ok (some original_text, msgs1) =>
      match read_file fs plagiarized_file with
      | Except.error e => Except.error e
      | Except.ok (none, msgs2) => Except.ok ⟨msgs1 ++ msgs2, none⟩
      | Except.ok (some plagiarized_text, msgs2) =>
        let original_words := preprocess_text segment original_text
        let plagiarized_words := preprocess_text segment plagiarized_text
        let similarity := calculate_similarity original_words plagiarized_words
        Except.ok ⟨msgs1 ++ msgs2, some (output_file, similarity)⟩
  | _ => Except.ok ⟨["输入错误"], none⟩

/-- A file system in which the path `a.txt` exists but is not a readable
file (so `open` raises `PermissionError` or `IsADirectoryError`, which
`read_file` does not catch) while every other path holds a readable
file. -/
def unreadable_fs : String → OpenResult :=
  fun p => if p = "a.txt" then OpenResult.otherOSError else OpenResult.readable "x"

/-! ### Helper lemmas: list sums versus finset sums -/

/-- Dropping the zero entries of a list of naturals does not change its sum. -/
theorem sum_filter_pos (l : List ℕ) :
    (l.filter fun n => decide (0 < n)).sum = l.sum := by
  induction l with
  | nil => rfl
  | cons n t ih =>
    cases n with
    | zero => simpa [List.filter_cons] using ih
    | succ m => simp [List.filter_cons, ih]

/-- Deduplicating a list does not change the finset of its elements. -/
theorem dedup_toFinset (l : List String) : l.dedup.toFinset = l.toFinset :=
  List.toFinset.ext fun _ => List.mem_dedup

/-- The intersection total computed by the code equals the spec's sum over
tokens present in both multisets. -/
theorem intersectionSize_eq (a b : List String) :
    intersectionSize a b = ∑ w ∈ a.toFinset ∩ b.toFinset, min (a.count w) (b.count w) := by
  have h2 : ∑ w ∈ a.toFinset ∩ b.toFinset, min (a.count w) (b.count w)
      = ∑ w ∈ a.toFinset, min (a.count w) (b.count w) := by
    apply Finset.sum_subset Finset.inter_subset_left
    intro x hx hnx
    have hxb : x ∉ b := fun hmem =>
      hnx (Finset.mem_inter.mpr ⟨hx, List.mem_toFinset.mpr hmem⟩)
    simp [List.count_eq_zero_of_not_mem hxb]
  rw [h2, ← dedup_toFinset a, List.sum_toFinset _ (List.nodup_dedup a)]
  simpa only [intersectionSize, counterAndVals] using sum_filter_pos _

/-- The union total computed by the code equals the spec's sum over
tokens present in either multiset. -/
theorem unionSize_eq (a b : List String) :
    unionSize a b = ∑ w ∈ a.toFinset ∪ b.toFinset, max (a.count w) (b.count w) := by
  have hdisj : Disjoint a.toFinset (b.toFinset \ a.toFinset) := Finset.disjoint_sdiff
  have hsplit : ∑ w ∈ a.toFinset ∪ b.toFinset, max (a.count w) (b.count w)
      = (∑ w ∈ a.toFinset, max (a.count w) (b.count w))
        + ∑ w ∈ b.toFinset \ a.toFinset, max (a.count w) (b.count w) := by
    rw [← Finset.sum_union hdisj, Finset.union_sdiff_self_eq_union]
  have h1 : ((a.dedup.map fun w => max (a.count w) (b.count w)).filter
        fun n => decide (0 < n)).sum
      = ∑ w ∈ a.toFinset, max (a.count w) (b.count w) := by
    rw [sum_filter_pos, ← dedup_toFinset a, List.sum_toFinset _ (List.nodup_dedup a)]
  have hset : (b.dedup.filter fun w => decide (0 < b.count w) && !decide (w ∈ a)).toFinset
      = b.toFinset \ a.toFinset := by
    ext x
    simp only [List.toFinset_filter, Finset.mem_filter, dedup_toFinset,
      List.mem_toFinset, Finset.mem_sdiff, Bool.and_eq_true, Bool.not_eq_eq_eq_not,
      Bool.not_true, decide_eq_true_eq, decide_eq_false_iff_not]
    constructor
    · rintro ⟨hb, _, hna⟩; exact ⟨hb, hna⟩
    · rintro ⟨hb, hna⟩; exact ⟨hb, List.count_pos_iff.mpr hb, hna⟩
  have h2 : ((b.dedup.filter fun w => decide (0 < b.count w) && !decide (w ∈ a)).map
        fun w => b.count w).sum
      = ∑ w ∈ b.toFinset \ a.toFinset, max (a.count w) (b.count w) := by
    rw [← List.sum_toFinset _ ((List.nodup_dedup b).filter _), hset]
    apply Finset.sum_congr rfl
    intro x hx
    have hxa : x ∉ a := fun hmem => (Finset.mem_sdiff.mp hx).2 (List.mem_toFinset.mpr hmem)
    rw [List.count_eq_zero_of_not_mem hxa, Nat.zero_max]
  simp only [unionSize, counterOrVals, List.sum_append, h1, h2, hsplit]

/-! ### The substring test -/

/-- `prefixMatch` decides "initial segment of". -/
theorem prefixMatch_iff {a b : List Char} :
    prefixMatch a b = true ↔ ∃ t, a ++ t = b := by
  induction a generalizing b with
  | nil => simp [prefixMatch]
  | cons x xs ih =>
    cases b with
    | nil => simp [prefixMatch]
    | cons y ys =>
      simp [prefixMatch, ih, List.cons_append, List.cons.injEq, exists_and_left]

/-- `isSubstring` decides "occurs contiguously inside", exactly the
semantics of Python's `in` on strings. -/
theorem isSubstring_iff {a b : List Char} :
    isSubstring a b = true ↔ ∃ s t, s ++ a ++ t = b := by
  induction b with
  | nil => simp [isSubstring, List.isEmpty_iff, List.append_eq_nil]
  | cons c t ih =>
    simp only [isSubstring, Bool.or_eq_true, prefixMatch_iff, ih]
    constructor
    · rintro (⟨u, hu⟩ | ⟨s, u, hu⟩)
      · exact ⟨[], u, by simpa using hu⟩
      · exact ⟨c :: s, u, by simp [hu]⟩
    · rintro ⟨s, u, hu⟩
      cases s with
      | nil => exact Or.inl ⟨u, by simpa using hu⟩
      | cons c' s' =>
        simp only [List.cons_append, List.cons.injEq] at hu
        exact Or.inr ⟨s', u, hu.2⟩

/-- The empty string is a substring of every string (this is what makes
the `len(word) > 0` test in the source unreachable). -/
theorem isSubstring_nil (b : List Char) : isSubstring [] b = true :=
  isSubstring_iff.mpr ⟨[], b, by simp⟩

/-! ### The filter of `preprocess_text` -/

/-- The drop condition the code actually implements: the unit is a
contiguous substring of the punctuation string, or a stop word. -/
def amended_dropB (w : String) : Bool :=
  isSubstring w.data punctuation.data || decide (w ∈ stop_words)

/-- The drop condition as the spec states it: the unit equals one of the
punctuation characters, or equals a stop word, or is empty. -/
def claimed_dropB (w : String) : Bool :=
  punctuation.data.any (fun c => w == String.mk [c]) || decide (w ∈ stop_words)
    || decide (w.length = 0)

/-- The keep test of the code is the negation of `amended_dropB`: the
zero-length conjunct is subsumed because the empty string is a substring
of the punctuation string. -/
theorem keepWord_eq_not_dropB : keepWord = fun w => !amended_dropB w := by
  funext w
  unfold keepWord amended_dropB
  cases hsub : isSubstring w.data punctuation.data with
  | true => simp
  | false =>
    have hne : w.data ≠ [] := by
      intro hnil
      rw [hnil, isSubstring_nil] at hsub
      simp at hsub
    have hlen : 0 < w.length := by
      have h0 : 0 < w.data.length := List.length_pos.mpr hne
      exact h0
    simp [hlen]

/-! ### Arithmetic facts about the scorer -/

/-- The intersection total is symmetric in the two word lists. -/
theorem intersectionSize_comm (a b : List String) :
    intersectionSize a b = intersectionSize b a := by
  rw [intersectionSize_eq, intersectionSize_eq, Finset.inter_comm]
  exact Finset.sum_congr rfl fun w _ => min_comm _ _

/-- The union total is symmetric in the two word lists. -/
theorem unionSize_comm (a b : List String) :
    unionSize a b = unionSize b a := by
  rw [unionSize_eq, unionSize_eq, Finset.union_comm]
  exact Finset.sum_congr rfl fun w _ => max_comm _ _

/-- The intersection total never exceeds the union total. -/
theorem intersectionSize_le_unionSize (a b : List String) :
    intersectionSize a b ≤ unionSize a b := by
  rw [intersectionSize_eq, unionSize_eq]
  refine le_trans (Finset.sum_le_sum_of_subset ?_)
    (Finset.sum_le_sum fun i _ => min_le_max)
  exact Finset.inter_subset_left.trans Finset.subset_union_left

/-- On a list compared with itself the union total is the list length. -/
theorem unionSize_self (a : List String) : unionSize a a = a.length := by
  rw [unionSize_eq, Finset.union_self]
  simpa only [max_self] using List.sum_toFinset_count_eq_length a

/-- On a list compared with itself the intersection total is the list length. -/
theorem intersectionSize_self (a : List String) :
    intersectionSize a a = a.length := by
  rw [intersectionSize_eq, Finset.inter_self]
  simpa only [min_self] using List.sum_toFinset_count_eq_length a

/-- The similarity is never negative. -/
theorem similarity_nonneg (a b : List String) : 0 ≤ calculate_similarity a b := by
  unfold calculate_similarity
  by_cases h : unionSize a b = 0
  · rw [if_pos h]
  · rw [if_neg h]
    positivity

/-- The similarity never exceeds `1`. -/
theorem similarity_le_one (a b : List String) : calculate_similarity a b ≤ 1 := by
  unfold calculate_similarity
  by_cases h : unionSize a b = 0
  · rw [if_pos h]; norm_num
  · rw [if_neg h]
    refine div_le_one_of_le₀ ?_ (by positivity)
    exact_mod_cast intersectionSize_le_unionSize a b

/-- When the two lists share no token the intersection total vanishes. -/
theorem intersectionSize_eq_zero_of_disjoint (a b : List String)
    (h : ∀ w ∈ a, w ∉ b) : intersectionSize a b = 0 := by
  rw [intersectionSize_eq]
  apply Finset.sum_eq_zero
  intro x hx
  rcases Finset.mem_inter.mp hx with ⟨hxa, hxb⟩
  exact absurd (List.mem_toFinset.mp hxb) (h x (List.mem_toFinset.mp hxa))

/-! ### Claims -/

/-- C1: for every pair of token sequences the scorer returns the sum over
tokens present in both multisets of the minimum of the two counts,
divided by the sum over tokens present in either multiset of the maximum
of the two counts, and `0` instead of dividing when the union sum is `0`. -/
theorem c1_scorer_matches_spec (a b : List String) :
    calculate_similarity a b = spec_score a b := by
  unfold calculate_similarity spec_score spec_union spec_intersection
  rw [intersectionSize_eq, unionSize_eq]

/-- C2 (counterexample): the unit `"，。"` is not a single punctuation
character, not a stop word and has nonzero length, so under the claimed
drop condition it survives; the code drops it because it is a substring
of the punctuation string. -/
theorem c2_counterexample :
    ¬ (filter_words ["，。"] = ["，。"].filter fun w => !claimed_dropB w) := by
  decide

/-- C2 (amended): `filter_words` drops exactly those units that occur as
a contiguous substring of the punctuation string (which includes every
single punctuation character and the empty string) or exactly match a
stop word, keeps the survivors in order, and empty input text yields an
empty sequence. -/
theorem c2_filter_characterization (segment : String → List String)
    (hseg : segment "" = []) (ws : List String) :
    filter_words ws = (ws.filter fun w => !amended_dropB w)
      ∧ preprocess_text segment "" = [] := by
  constructor
  · unfold filter_words
    rw [keepWord_eq_not_dropB]
  · unfold preprocess_text
    rw [hseg]
    rfl

/-- Witness for C2 (amended) at a concrete segmenter and unit list. -/
theorem c2_filter_characterization_witness :
    (filter_words ["，。", "你好"] = (["，。", "你好"].filter fun w => !amended_dropB w))
      ∧ preprocess_text (fun _ => []) "" = [] :=
  c2_filter_characterization (fun _ => []) rfl ["，。", "你好"]

/-- C3 (counterexample): two singleton sequences with different tokens
have union total `2 ≠ 0`, yet the score is `0`, not strictly positive. -/
theorem c3_counterexample :
    unionSize ["a"] ["b"] ≠ 0 ∧ ¬ (0 < calculate_similarity ["a"] ["b"]) := by
  constructor
  · decide
  · have h : calculate_similarity ["a"] ["b"] = 0 := by
      unfold calculate_similarity
      rw [show unionSize ["a"] ["b"] = 2 from by decide,
        show intersectionSize ["a"] ["b"] = 0 from by decide]
      norm_num
    rw [h]
    exact lt_irrefl 0

/-- C3 (amended): whenever the union total is nonzero the score is the
exact quotient of intersection total by union total and lies in the
closed interval `[0, 1]`. -/
theorem c3_score_quotient_in_unit_interval (a b : List String)
    (h : unionSize a b ≠ 0) :
    calculate_similarity a b = (intersectionSize a b : ℚ) / (unionSize a b : ℚ)
      ∧ 0 ≤ calculate_similarity a b ∧ calculate_similarity a b ≤ 1 := by
  refine ⟨?_, similarity_nonneg a b, similarity_le_one a b⟩
  unfold calculate_similarity
  rw [if_neg h]

/-- Witness for C3 (amended) on two equal singleton sequences. -/
theorem c3_score_quotient_in_unit_interval_witness :
    calculate_similarity ["a"] ["a"]
        = (intersectionSize ["a"] ["a"] : ℚ) / (unionSize ["a"] ["a"] : ℚ)
      ∧ 0 ≤ calculate_similarity ["a"] ["a"] ∧ calculate_similarity ["a"] ["a"] ≤ 1 :=
  c3_score_quotient_in_unit_interval ["a"] ["a"] (by decide)

/-- C4: comparing a non-empty token sequence with itself scores exactly `1`. -/
theorem c4_identity (a : List String) (h : a ≠ []) :
    calculate_similarity a a = 1 := by
  have hlen : a.length ≠ 0 := fun hl => h (List.length_eq_zero.mp hl)
  unfold calculate_similarity
  rw [unionSize_self, intersectionSize_self, if_neg hlen]
  exact div_self (Nat.cast_ne_zero.mpr hlen)

/-- Witness for C4 at a singleton sequence. -/
theorem c4_identity_witness : calculate_similarity ["a"] ["a"] = 1 :=
  c4_identity ["a"] (by decide)

/-- C5: the score is symmetric in its two arguments. -/
theorem c5_symmetry (a b : List String) :
    calculate_similarity a b = calculate_similarity b a := by
  unfold calculate_similarity
  rw [intersectionSize_comm, unionSize_comm]

/-- C6: every score lies between `0` and `1` inclusive. -/
theorem c6_bounds (a b : List String) :
    0 ≤ calculate_similarity a b ∧ calculate_similarity a b ≤ 1 :=
  ⟨similarity_nonneg a b, similarity_le_one a b⟩

/-- C7: sequences sharing no token (in particular when exactly one of
them is empty) score `0`. -/
theorem c7_disjoint_zero (a b : List String) (h : ∀ w ∈ a, w ∉ b) :
    calculate_similarity a b = 0 := by
  unfold calculate_similarity
  by_cases hu : unionSize a b = 0
  · rw [if_pos hu]
  · rw [if_neg hu, intersectionSize_eq_zero_of_disjoint a b h]
    norm_num

/-- Witness for C7: a non-empty sequence against an empty one. -/
theorem c7_disjoint_zero_witness : calculate_similarity ["a"] [] = 0 :=
  c7_disjoint_zero ["a"] [] (by decide)

/-- C8: the total of the occurrence counts stored in the token multiset
built from a sequence equals the length of that sequence. -/
theorem c8_counter_total (ws : List String) : counterTotal ws = ws.length := by
  unfold counterTotal
  rw [← List.sum_toFinset _ (List.nodup_dedup ws), dedup_toFinset]
  exact List.sum_toFinset_count_eq_length ws

/-- C9 (counterexample): the first input path does not resolve to a
readable file — it exists but `open` raises an `OSError` other than
`FileNotFoundError` — and the exception propagates past the entry point:
the run ends in `Except.error` with no diagnostic printed and no run
result at all, refuting "no exception propagates past the entry point"
for such paths. -/
theorem c9_counterexample :
    unreadable_fs "a.txt" = OpenResult.otherOSError
      ∧ main_run unreadable_fs (fun _ => []) ["main.py", "a.txt", "b.txt", "out.txt"]
          = Except.error "a.txt" :=
  ⟨rfl, rfl⟩

/-- C9 (amended): when an input path names a *non-existent* file (`open`
raises `FileNotFoundError`) — the first path, or the second with the
first readable — the program reports the file-not-found diagnostic
naming the missing path, writes no output file, and no exception
propagates past the entry point (the run ends in `Except.ok`); a path
that exists but is not readable instead propagates its exception
uncaught. -/
theorem c9_missing_input (fs : String → OpenResult)
    (segment : String → List String) (prog orig plag out : String)
    (h : fs orig = OpenResult.fileNotFound
         ∨ ∃ c, fs orig = OpenResult.readable c ∧ fs plag = OpenResult.fileNotFound) :
    ∃ r : RunResult,
      main_run fs segment [prog, orig, plag, out] = Except.ok r
        ∧ r.written = none
        ∧ ((fs orig = OpenResult.fileNotFound ∧ file_not_found_msg orig ∈ r.console)
           ∨ (fs plag = OpenResult.fileNotFound ∧ file_not_found_msg plag ∈ r.console)) := by
  rcases h with h | ⟨c, hc, hp⟩
  · refine ⟨⟨[ file_not_found_msg orig], none⟩, ?_, rfl, Or.inl ⟨h, by simp⟩⟩
    simp [main_run, read_file, h]
  · refine ⟨⟨[] ++ [ file_not_found_msg plag], none⟩, ?_, rfl, Or.inr ⟨hp, by simp⟩⟩
    simp [main_run, read_file, hc, hp]

/-- Witness for C9 (amended): a file system in which no path exists. -/
theorem c9_missing_input_witness :
    ∃ r : RunResult,
      main_run (fun _ => OpenResult.fileNotFound) (fun _ => [])
          ["main.py", "a.txt", "b.txt", "out.txt"] = Except.ok r
        ∧ r.written = none
        ∧ (((fun _ => OpenResult.fileNotFound : String → OpenResult) "a.txt"
              = OpenResult.fileNotFound ∧ file_not_found_msg "a.txt" ∈ r.console)
           ∨ ((fun _ => OpenResult.fileNotFound : String → OpenResult) "b.txt"
              = OpenResult.fileNotFound ∧ file_not_found_msg "b.txt" ∈ r.console)) :=
  c9_missing_input (fun _ => OpenResult.fileNotFound) (fun _ => [])
    "main.py" "a.txt" "b.txt" "out.txt" (Or.inl rfl)

/-- C10: every unit that occurs as a contiguous substring of the
punctuation string — multi-character runs and the empty string included —
is dropped by the filter, because the membership test of the source is a
substring test on the punctuation string. -/
theorem c10_substring_dropped (w : String) (ws : List String)
    (h : ∃ s t, s ++ w.data ++ t = punctuation.data) :
    w ∉ filter_words ws := by
  intro hmem
  have hk : keepWord w = true := (List.mem_filter.mp hmem).2
  have hsub : isSubstring w.data punctuation.data = true := isSubstring_iff.mpr h
  simp [keepWord, hsub] at hk

/-- Witness for C10: the two-character punctuation run `"，。"` and the
empty string are both dropped. -/
theorem c10_substring_dropped_witness :
    "，。" ∉ filter_words ["，。", ""] ∧ "" ∉ filter_words ["，。", ""] :=
  ⟨c10_substring_dropped "，。" ["，。", ""]
      ⟨[], "！？；：\"\"（）【】《》、".data, by decide⟩,
   c10_substring_dropped "" ["，。", ""]
      ⟨"，。".data, "！？；：\"\"（）【】《》、".data, by decide⟩⟩

end PlagCheck
